import Mathlib

/-!
Verification of the cross-context execution bridge of `use-pyodide`.

The development shallowly embeds the three source modules:

* `src/initializePyodide.ts` — the Initialization Coordinator: a module-level
  variable `pyodide : Promise<Pyodide> | undefined`, the functions
  `initializePyodide`, `_initializePyodide` and `getPyodide`.
* `src/pyodide-api.ts` — the Bridge Client: module-level variables
  `_worker` and `_runner`, the functions `initializeWorker`, `runPython`,
  `runPythonJson`, `setOutput` and `terminate`.
* `src/pyodide-worker.ts` — the Remote Execution Endpoint: module-level
  variables `_pyodideReady` and `_output`, the functions `initialize`,
  `_loadPyodide`, `runPython` and `setOutput`.

Mutable module state becomes explicit state records with step functions.
Promises are modelled by identifiers (`Nat`); an async function is identified
with the promise chain it resolves to, so a call that returns the stored
module promise is modelled as returning that promise identifier. All
synchronous sections of the JavaScript run to completion atomically (the
event loop interleaves only at `await` points), so each exported operation
whose check-and-set section contains no `await` is modelled as one atomic
step. Callback functions (output sinks) are modelled by identifiers.
-/

namespace UsePyodide

/-! ## Initialization Coordinator (`src/initializePyodide.ts`) -/

/-- Caller configuration of `initializePyodide`:
`{ debug?, packages?, stdout?, stderr? }`. Sinks are identifiers. -/
structure CoordConfig where
  debug : Bool
  packages : Option (List String)
  stdout : Option Nat
  stderr : Option Nat
deriving DecidableEq, Repr

/-- Module-level state of `initializePyodide.ts`, together with the
bookkeeping the claims are about.

* `pyodide` — the module variable `pyodide : Promise<Pyodide> | undefined`,
  as an optional promise identifier.
* `debugFlag` — Modelled from the spec: the `DEBUG` flag of `src/config.ts`
  (that file is not under `src/`); the spec lists `debug` among the
  configuration options and the code calls `setDebug(debug)` on line 22 of
  `initializePyodide.ts` on every call, before the singleton check, and
  reads `DEBUG` on line 45. `setDebug` is modelled as overwriting this
  process-wide flag.
* `starts` — how many times the worker-construction work
  (`initializeWorker`) has been invoked by the coordinator.
* `usedPackages`, `usedWorkerOptions` — the `packages` and worker options
  actually handed to the `initializeWorker` invocation that ran.
* `nextId` — promise allocator. -/
structure CoordState where
  pyodide : Option Nat
  debugFlag : Bool
  starts : Nat
  usedPackages : Option (List String)
  usedWorkerOptions : Option (Option Nat × Option Nat)
  nextId : Nat
deriving DecidableEq, Repr

/-- The state at module load: `pyodide` is `undefined`, nothing started. -/
def initialCoordState : CoordState :=
  { pyodide := none, debugFlag := false, starts := 0,
    usedPackages := none, usedWorkerOptions := none, nextId := 0 }

/-- One call of `initializePyodide(options)` (lines 13–29).

The body is synchronous, hence atomic: it destructures the options,
calls `setDebug(debug)` (line 22, unconditionally), and if the module
variable is `undefined` computes
`workerOptions` from `stdout` and `stderr` when either is set
(line 25) and assigns `pyodide = _initializePyodide(packages, workerOptions)`
(line 26). `_initializePyodide` itself (lines 34–47) runs synchronously:
it assigns `pyodide = initializeWorker(packages, options)` — the promise
`s.nextId` here — and returns, its async wrapper being the fresh promise
`s.nextId + 1`, which line 26 stores and line 28 returns. Both promises
settle to the outcome of the single `initializeWorker` chain. If the module
variable is already set, it is returned unchanged (line 28). -/
def initializePyodideStep (cfg : CoordConfig) (s : CoordState) :
    Nat × CoordState :=
  match s.pyodide with
  | some p => (p, { s with debugFlag := cfg.debug })
  | none =>
      let workerOptions : Option (Option Nat × Option Nat) :=
        if cfg.stdout.isSome || cfg.stderr.isSome then
          some (cfg.stdout, cfg.stderr)
        else none
      (s.nextId + 1,
        { s with
          debugFlag := cfg.debug,
          pyodide := some (s.nextId + 1),
          starts := s.starts + 1,
          usedPackages := cfg.packages,
          usedWorkerOptions := workerOptions,
          nextId := s.nextId + 2 })

/-- One call of `getPyodide(options)` (lines 55–68): if the module variable
is set (a promise object is always truthy) it is returned with no other
effect; otherwise the call forwards to `initializePyodide(options)`, whose
options carry only `stdout`/`stderr` — `debug` and `packages` are absent,
so they take their defaults. -/
def getPyodideStep (stdout stderr : Option Nat) (s : CoordState) :
    Nat × CoordState :=
  match s.pyodide with
  | some p => (p, s)
  | none =>
      initializePyodideStep
        { debug := false, packages := none, stdout := stdout, stderr := stderr } s

/-- A coordinator entry point being invoked: either `initializePyodide`
with a full config, or `getPyodide` with stdout/stderr sinks. -/
inductive CoordCall where
  | viaInitialize (cfg : CoordConfig)
  | viaGet (stdout stderr : Option Nat)
deriving DecidableEq, Repr

/-- Dispatch one coordinator call. -/
def coordStep (s : CoordState) : CoordCall → Nat × CoordState
  | .viaInitialize cfg => initializePyodideStep cfg s
  | .viaGet so se => getPyodideStep so se s

/-- Run a sequence of coordinator calls, collecting each call returned
promise identifier and the final module state. -/
def coordRun (s : CoordState) : List CoordCall → List Nat × CoordState
  | [] => ([], s)
  | c :: cs =>
      ((coordStep s c).1 :: (coordRun (coordStep s c).2 cs).1,
        (coordRun (coordStep s c).2 cs).2)

/-- Once the module variable is set, any coordinator call returns exactly
the stored promise and leaves the stored promise, the start count and the
recorded init-time configuration unchanged. -/
theorem coordStep_some (s : CoordState) (c : CoordCall) (p : Nat)
    (h : s.pyodide = some p) :
    (coordStep s c).1 = p ∧ (coordStep s c).2.pyodide = some p ∧
      (coordStep s c).2.starts = s.starts ∧
      (coordStep s c).2.usedPackages = s.usedPackages ∧
      (coordStep s c).2.usedWorkerOptions = s.usedWorkerOptions := by
  cases c <;>
    simp [coordStep, initializePyodideStep, getPyodideStep, h]

/-- Once the module variable is set, a whole run of further calls returns
only the stored promise and preserves it and the start count. -/
theorem coordRun_some (cs : List CoordCall) :
    ∀ (s : CoordState) (p : Nat), s.pyodide = some p →
      (∀ x ∈ (coordRun s cs).1, x = p) ∧
        (coordRun s cs).2.pyodide = some p ∧
        (coordRun s cs).2.starts = s.starts := by
  induction cs with
  | nil =>
      intro s p h
      simp [coordRun, h]
  | cons c cs ih =>
      intro s p h
      obtain ⟨h1, h2, h3, _, _⟩ := coordStep_some s c p h
      obtain ⟨ih1, ih2, ih3⟩ := ih (coordStep s c).2 p h2
      refine ⟨?_, ?_, ?_⟩
      · intro x hx
        simp only [coordRun, List.mem_cons] at hx
        rcases hx with hx | hx
        · exact hx ▸ h1
        · exact ih1 x hx
      · simpa [coordRun] using ih2
      · simp only [coordRun]
        exact ih3.trans h3

/-- A coordinator call on an uninitialized module records the promise it
returns in the module variable and starts the worker-construction work
exactly once more. -/
theorem coordStep_none (s : CoordState) (c : CoordCall)
    (h : s.pyodide = none) :
    (coordStep s c).2.pyodide = some ((coordStep s c).1) ∧
      (coordStep s c).2.starts = s.starts + 1 := by
  cases c <;>
    simp [coordStep, initializePyodideStep, getPyodideStep, h]

/-! ## Bridge Client (`src/pyodide-api.ts`) -/

/-- The apostrophe character, used to spell string literals of the source
without a literal apostrophe in this file. -/
def apostrophe : Char := Char.ofNat 39

/-- The not-ready error message thrown by the client:
`pyodide is not loaded yet`, with the contraction of the source. -/
def notLoadedMsg : String :=
  "pyodide isn" ++ String.mk [apostrophe] ++ "t loaded yet"

/-- Module-level state of `pyodide-api.ts`.

* `worker` — whether `_worker` is non-null.
* `runner` — whether `_runner` is non-null.
* `initResolved` — ghost flag: whether the `await _runner.initialize(...)`
  of the `initializeWorker` call that created the worker has resolved. The
  code itself never reads it; it serves only to state properties about the
  window between the start and the resolution of `initializeWorker`.
* `endpointInitCalls` — how many times `_runner.initialize` has been
  invoked by the client. -/
structure ApiState where
  worker : Bool
  runner : Bool
  initResolved : Bool
  endpointInitCalls : Nat
deriving DecidableEq, Repr

/-- The state at module load: `_worker = null`, `_runner = null`. -/
def initialApiState : ApiState :=
  { worker := false, runner := false, initResolved := false,
    endpointInitCalls := 0 }

/-- The synchronous prefix of `initializeWorker` (lines 188–207): when
`_worker` is null, a new worker is constructed and `_worker` and `_runner`
are assigned, and `_runner.initialize` is invoked — all before the `await`
on that call resolves. When `_worker` is already set, the whole `if` body
is skipped and the state is untouched. -/
def initializeWorkerStart (s : ApiState) : ApiState :=
  if s.worker then s
  else
    { worker := true, runner := true, initResolved := false,
      endpointInitCalls := s.endpointInitCalls + 1 }

/-- The resolution of the awaited `_runner.initialize(...)` inside
`initializeWorker`; only the ghost flag changes. -/
def initializeWorkerFinish (s : ApiState) : ApiState :=
  { s with initResolved := true }

/-- A whole successful `initializeWorker(packages, options)` call viewed
atomically (lines 188–215): if `_worker` is already set, the `if` body is
skipped — no worker is constructed, `_runner.initialize` is not invoked —
and a fresh façade object is returned at once; otherwise the worker is
constructed, `_runner.initialize` is invoked once and awaited, and the
façade is returned. The call itself resolves with the façade (`.ok ()`)
in both cases; it never rejects with the already-initialized error. -/
def initializeWorkerCall (s : ApiState) : Except String Unit × ApiState :=
  if s.worker then (Except.ok (), s)
  else
    (Except.ok (),
      { worker := true, runner := true, initResolved := true,
        endpointInitCalls := s.endpointInitCalls + 1 })

/-- The client `runPython` (lines 220–229): if `_worker` or `_runner` is
null it throws the not-ready error; otherwise it forwards to the worker
and resolves with whatever the worker call resolves with (`forwarded`). -/
def clientRunPython {α : Type} (s : ApiState) (forwarded : α) :
    Except String α :=
  if !s.worker || !s.runner then Except.error notLoadedMsg
  else Except.ok forwarded

/-- The client `setOutput` (lines 247–252): if `_runner` is null it throws
the not-ready error; otherwise it forwards the (proxied) callback, or
null, to the worker. -/
def clientSetOutput (s : ApiState) (cb : Option Nat) :
    Except String (Option Nat) :=
  if !s.runner then Except.error notLoadedMsg
  else Except.ok cb

/-- The client `runPythonJson` (lines 234–244): runs `runPython` (a throw
propagates), treats the result as a string, and when that result is truthy
— a non-empty string; `undefined`/`None` results are modelled as `none` —
parses it as JSON with `parse` and returns the parsed value, a parse error
propagating as-is; a falsy result yields `null`. -/
def runPythonJson {α : Type} (parse : String → Except String α)
    (s : ApiState) (workerResult : Option String) :
    Except String (Option α) :=
  match clientRunPython s workerResult with
  | Except.error e => Except.error e
  | Except.ok none => Except.ok none
  | Except.ok (some str) =>
      if str.isEmpty then Except.ok none
      else
        match parse str with
        | Except.ok j => Except.ok (some j)
        | Except.error e => Except.error e

/-- The client `terminate` (lines 257–262): terminates the worker,
releases the proxy, and nulls both `_worker` and `_runner`. -/
def terminateClient (s : ApiState) : ApiState :=
  { s with worker := false, runner := false }

/-! ## Remote Execution Endpoint (`src/pyodide-worker.ts`) -/

/-- The already-initialized error message thrown by the endpoint. -/
def alreadyInitMsg : String := "pyodide was already initialized"

/-- Settlement state of the `_pyodideReady` promise. -/
inductive PromState where
  | pending
  | resolved
  | rejected
deriving DecidableEq, Repr

/-- The `stdout`/`stderr` sinks optionally supplied to the endpoint
`initialize` and captured by the `loadPyodide` output closures. -/
structure WOpts where
  stdout : Option Nat
  stderr : Option Nat
deriving DecidableEq, Repr

/-- Module-level state of `pyodide-worker.ts`.

* `pyodideReady` — the variable `_pyodideReady : Promise<void> | null`,
  with the settlement state of the promise when non-null.
* `output` — the variable `_output`, the single replaceable Output Sink.
* `initOptions` — the `options` captured by the `_loadPyodide` closures.
* `requestedPackages` — the `packages` handed to `_loadPyodide`. -/
structure WorkerState where
  pyodideReady : Option PromState
  output : Option Nat
  initOptions : Option WOpts
  requestedPackages : List String
deriving DecidableEq, Repr

/-- The state at worker-module load: `_pyodideReady = null`,
`_output = null`. -/
def initialWorkerState : WorkerState :=
  { pyodideReady := none, output := none, initOptions := none,
    requestedPackages := [] }

/-- The endpoint `initialize` (lines 29–49): if `_pyodideReady` is not
null — whether still pending, resolved, or rejected — it throws
`pyodide was already initialized`; otherwise it synchronously assigns
`_pyodideReady = _loadPyodide(packages, options)`, a pending promise,
before any loading work completes, and returns it. -/
def workerInitialize (pkgs : List String) (opts : Option WOpts)
    (s : WorkerState) : Except String WorkerState :=
  if s.pyodideReady.isSome then Except.error alreadyInitMsg
  else
    Except.ok
      { s with pyodideReady := some PromState.pending, initOptions := opts,
               requestedPackages := pkgs }

/-- Settlement of the `_loadPyodide` promise: a pending `_pyodideReady`
becomes resolved or rejected; nothing ever assigns `_pyodideReady` back
to null. -/
def workerSettleReady (ok : Bool) (s : WorkerState) : WorkerState :=
  match s.pyodideReady with
  | some PromState.pending =>
      if ok then { s with pyodideReady := some PromState.resolved }
      else { s with pyodideReady := some PromState.rejected }
  | _ => s

/-- The worker `setOutput` (lines 135–137): overwrite the single `_output`
slot with the new callback, or null. -/
def setOutputWorker (cb : Option Nat) (s : WorkerState) : WorkerState :=
  { s with output := cb }

/-- One operation of the endpoint, for stating state invariants: an
`initialize` call (a throw leaves the state unchanged), the settlement of
the load promise, or a `setOutput` call. -/
inductive WorkerOp where
  | init (pkgs : List String) (opts : Option WOpts)
  | settle (ok : Bool)
  | setOut (cb : Option Nat)
deriving DecidableEq, Repr

/-- Apply one endpoint operation to the worker-module state. -/
def workerStep (s : WorkerState) : WorkerOp → WorkerState
  | .init pkgs opts =>
      match workerInitialize pkgs opts s with
      | Except.ok s2 => s2
      | Except.error _ => s
  | .settle ok => workerSettleReady ok s
  | .setOut cb => setOutputWorker cb s

/-- Delivery of one text chunk through the replaceable `_output` slot,
reading the slot at call time — as the `loadPyodide` stdout/stderr
closures (lines 72–74 and 82–84) and the `runPython` error path
(lines 125–127) do. -/
def outputSlotDelivery (s : WorkerState) (msg : String) :
    List (Nat × String) :=
  match s.output with
  | some k => [(k, msg)]
  | none => []

/-- Full delivery of one stdout chunk (lines 68–76): first the
initialization-time `options.stdout` sink if present, then the current
`_output` slot if set. -/
def stdoutDelivery (s : WorkerState) (msg : String) : List (Nat × String) :=
  (match s.initOptions with
   | some o =>
       match o.stdout with
       | some k => [(k, msg)]
       | none => []
   | none => []) ++ outputSlotDelivery s msg

/-! ## Error normalization (worker `runPython`, lines 109–132) -/

/-- Substring search on character lists: does `p` occur contiguously in
`s`? Mirrors the JavaScript `String.prototype.includes`. -/
def listHasSub (p : List Char) : List Char → Bool
  | [] => p.isPrefixOf []
  | c :: t => p.isPrefixOf (c :: t) || listHasSub p t

/-- Substring containment on strings, the model of `line.includes(pat)`. -/
def containsSub (s pat : String) : Bool :=
  listHasSub pat.data s.data

/-- The synthetic execution-unit marker filtered out of error messages:
the literal `File "<exec>"`. -/
def markerLine : String := "File \"<exec>\""

/-- Split a character list at every newline. As the JavaScript
`str.split("\n")`: the empty string yields one empty piece, and a
trailing newline yields a trailing empty piece. -/
def splitLinesChars : List Char → List (List Char)
  | [] => [[]]
  | c :: t =>
      if c = Char.ofNat 10 then [] :: splitLinesChars t
      else
        match splitLinesChars t with
        | [] => [[c]]
        | h :: tl => (c :: h) :: tl

/-- The model of `msg.split("\n")`. -/
def splitLines (msg : String) : List String :=
  (splitLinesChars msg.data).map String.mk

/-- Sanity check of the line splitter against concrete strings. -/
theorem splitLines_example :
    splitLines "a\nbc\n" = ["a", "bc", ""] ∧ splitLines "" = [""] ∧
      splitLines "ab" = ["ab"] := by
  refine ⟨rfl, rfl, rfl⟩

/-- The lines of an error message that survive cleaning (line 122–123):
`err.message.split("\n")` filtered to those not containing the marker. -/
def cleanKeptLines (msg : String) : List String :=
  (splitLines msg).filter (fun line => !containsSub line markerLine)

/-- The cleaned error message (lines 122–124): the surviving lines
rejoined with newlines. -/
def cleanErrorMessage (msg : String) : String :=
  String.intercalate "\n" (cleanKeptLines msg)

/-- What the worker `runPython` throws: either an engine `Error` instance
carrying a message, or some other thrown value, modelled opaquely. -/
inductive EngineErr where
  | jsError (msg : String)
  | nonError (tag : Nat)
deriving DecidableEq, Repr

/-- The worker `runPython` (lines 109–132), as a function of the outcome
of `pyodide.runPythonAsync` once evaluation has run: a success value is
returned unchanged; an `Error` instance has its message cleaned, the
cleaned message is delivered through the current `_output` slot if one is
set (lines 125–127), and a new `Error` with the cleaned message is thrown
(line 128); any other thrown value is re-thrown unmodified with no sink
delivery (line 130). The first component lists the sink deliveries
performed before the throw. -/
def workerRunPython (s : WorkerState) (outcome : Except EngineErr Nat) :
    List (Nat × String) × Except EngineErr Nat :=
  match outcome with
  | Except.ok v => ([], Except.ok v)
  | Except.error (EngineErr.jsError msg) =>
      (outputSlotDelivery s (cleanErrorMessage msg),
        Except.error (EngineErr.jsError (cleanErrorMessage msg)))
  | Except.error (EngineErr.nonError t) =>
      ([], Except.error (EngineErr.nonError t))

/-- Decidable equality for `Except`, so concrete runs can be checked by
`decide`. -/
instance instDecEqExcept {ε α : Type} [DecidableEq ε] [DecidableEq α] :
    DecidableEq (Except ε α)
  | Except.ok a, Except.ok b =>
      if h : a = b then Decidable.isTrue (by rw [h])
      else Decidable.isFalse (by intro hh; injection hh with h2; exact h h2)
  | Except.ok _, Except.error _ =>
      Decidable.isFalse (by intro hh; exact Except.noConfusion hh)
  | Except.error _, Except.ok _ =>
      Decidable.isFalse (by intro hh; exact Except.noConfusion hh)
  | Except.error d, Except.error e =>
      if h : d = e then Decidable.isTrue (by rw [h])
      else Decidable.isFalse (by intro hh; injection hh with h2; exact h h2)

/-! ## Claim C1 -/

/-- Claim C1: for every sequence of calls to the Coordinator initialize
operation (`initializePyodide` / `getPyodide`), the worker-construction
work (`initializeWorker`) is started exactly once: the first call records
a process-wide promise before returning (the recorded promise is the one
it returns), every later call returns that same recorded promise — hence
all callers resolve to the same bridge instance — and the start count
stays at one over the whole run. -/
theorem coordinator_initializes_exactly_once (c : CoordCall)
    (cs : List CoordCall) :
    (coordStep initialCoordState c).2.pyodide =
        some (coordStep initialCoordState c).1 ∧
      (coordStep initialCoordState c).2.starts = 1 ∧
      (∀ x ∈ (coordRun (coordStep initialCoordState c).2 cs).1,
        x = (coordStep initialCoordState c).1) ∧
      (coordRun (coordStep initialCoordState c).2 cs).2.starts = 1 := by
  have h0 : initialCoordState.pyodide = none := rfl
  obtain ⟨h1, h2⟩ := coordStep_none initialCoordState c h0
  obtain ⟨h3, h4, h5⟩ :=
    coordRun_some cs (coordStep initialCoordState c).2
      (coordStep initialCoordState c).1 h1
  have hst : (coordStep initialCoordState c).2.starts = 1 := by
    rw [h2]; rfl
  exact ⟨h1, hst, h3, h5.trans hst⟩

/-- Witness for Claim C1 at a concrete two-call run — a `getPyodide`
first, then an `initializePyodide` with a full config: the second call
returned exactly the promise recorded by the first, and the start count
is one. -/
theorem coordinator_initializes_exactly_once_witness :
    (1 : Nat) ∈ (coordRun (coordStep initialCoordState
        (CoordCall.viaGet none none)).2
        [CoordCall.viaInitialize
          { debug := true, packages := none, stdout := none,
            stderr := none }]).1 ∧
      (1 : Nat) = (coordStep initialCoordState
        (CoordCall.viaGet none none)).1 ∧
      (coordRun (coordStep initialCoordState
        (CoordCall.viaGet none none)).2
        [CoordCall.viaInitialize
          { debug := true, packages := none, stdout := none,
            stderr := none }]).2.starts = 1 :=
  ⟨by decide,
    (coordinator_initializes_exactly_once (CoordCall.viaGet none none)
      [CoordCall.viaInitialize
        { debug := true, packages := none, stdout := none,
          stderr := none }]).2.2.1 1 (by decide),
    (coordinator_initializes_exactly_once (CoordCall.viaGet none none)
      [CoordCall.viaInitialize
        { debug := true, packages := none, stdout := none,
          stderr := none }]).2.2.2⟩

/-! ## Claim C5 -/

/-- Claim C5: if the single underlying initialization fails, the stored
process-wide promise permanently rejects for everyone: after any nonempty
run of Coordinator initialize calls, the worker-construction work was
started exactly once, one promise is stored, every caller of the run
received exactly that promise (so each observes that one promise
settlement — the same rejection when the work fails), and any subsequent
call again receives the same promise with no new start and no reset of
the stored state. -/
theorem coordinator_failure_is_permanent (c : CoordCall)
    (cs : List CoordCall) :
    (coordRun initialCoordState (c :: cs)).2.starts = 1 ∧
      ∃ p, (coordRun initialCoordState (c :: cs)).2.pyodide = some p ∧
        (∀ x ∈ (coordRun initialCoordState (c :: cs)).1, x = p) ∧
        ∀ c2, (coordStep (coordRun initialCoordState (c :: cs)).2 c2).1 = p ∧
          (coordStep (coordRun initialCoordState (c :: cs)).2 c2).2.pyodide =
            some p ∧
          (coordStep (coordRun initialCoordState (c :: cs)).2 c2).2.starts
            = 1 := by
  have h0 : initialCoordState.pyodide = none := rfl
  obtain ⟨h1, h2⟩ := coordStep_none initialCoordState c h0
  obtain ⟨h3, h4, h5⟩ :=
    coordRun_some cs (coordStep initialCoordState c).2
      (coordStep initialCoordState c).1 h1
  have hst : (coordStep initialCoordState c).2.starts = 1 := by
    rw [h2]; rfl
  have hrun1 : (coordRun initialCoordState (c :: cs)).2.starts = 1 := by
    simp only [coordRun]
    exact h5.trans hst
  refine ⟨hrun1, (coordStep initialCoordState c).1, ?_, ?_, ?_⟩
  · simpa [coordRun] using h4
  · intro x hx
    simp only [coordRun, List.mem_cons] at hx
    rcases hx with hx | hx
    · exact hx
    · exact h3 x hx
  · intro c2
    have h6 : (coordRun initialCoordState (c :: cs)).2.pyodide =
        some (coordStep initialCoordState c).1 := by
      simpa [coordRun] using h4
    obtain ⟨g1, g2, g3, _, _⟩ :=
      coordStep_some (coordRun initialCoordState (c :: cs)).2 c2
        (coordStep initialCoordState c).1 h6
    exact ⟨g1, g2, g3.trans hrun1⟩

/-- Witness for Claim C5 at a concrete one-call run followed by one more
call: the start count is one and stays one. -/
theorem coordinator_failure_is_permanent_witness :
    (coordRun initialCoordState [CoordCall.viaGet (some 7) none]).2.starts
        = 1 ∧
      (coordStep
        (coordRun initialCoordState [CoordCall.viaGet (some 7) none]).2
        (CoordCall.viaInitialize
          { debug := false, packages := none, stdout := none,
            stderr := none })).2.starts = 1 := by
  obtain ⟨h1, p, h2, h3, h4⟩ :=
    coordinator_failure_is_permanent (CoordCall.viaGet (some 7) none) []
  exact ⟨h1, (h4 _).2.2⟩

/-! ## Claim C6 -/

/-- A config with every option defaulted (`debug` false). -/
def cfgDebugOff : CoordConfig :=
  { debug := false, packages := none, stdout := none, stderr := none }

/-- A config that only turns `debug` on. -/
def cfgDebugOn : CoordConfig :=
  { debug := true, packages := none, stdout := none, stderr := none }

/-- The module state after one `initializePyodide` call with defaulted
options: initialization has been triggered. -/
def coordStateAfterFirst : CoordState :=
  (coordStep initialCoordState (CoordCall.viaInitialize cfgDebugOff)).2

/-- Claim C6 counterexample: after initialization has been triggered, a
later `initializePyodide` call does NOT leave all observable state
untouched by its config — the same call with `debug := true` and with
`debug := false` produce different states, because `setDebug(debug)` runs
on every call before the singleton check and overwrites the process-wide
debug flag. So the claim that the caller-supplied config (which includes
`debug`) has no effect on any observable state fails. -/
theorem later_config_changes_debug_flag :
    coordStateAfterFirst.pyodide.isSome = true ∧
      (coordStep coordStateAfterFirst
          (CoordCall.viaInitialize cfgDebugOn)).2 ≠
        (coordStep coordStateAfterFirst
          (CoordCall.viaInitialize cfgDebugOff)).2 ∧
      (coordStep coordStateAfterFirst
          (CoordCall.viaInitialize cfgDebugOn)).2.debugFlag = true ∧
      (coordStep coordStateAfterFirst
          (CoordCall.viaInitialize cfgDebugOff)).2.debugFlag = false := by
  decide

/-- Claim C6 as amended: once initialization has been triggered, a later
`initializePyodide` call is not rejected, returns the stored promise, and
its `packages`, `stdout` and `stderr` have no effect on any state — the
only state it touches is the process-wide debug flag, which is set to the
debug option of the call; a later `getPyodide` call returns the stored
promise and changes nothing at all. -/
theorem later_config_ignored_except_debug (s : CoordState)
    (cfg : CoordConfig) (so se : Option Nat) (p : Nat)
    (h : s.pyodide = some p) :
    initializePyodideStep cfg s = (p, { s with debugFlag := cfg.debug }) ∧
      getPyodideStep so se s = (p, s) := by
  constructor
  · simp [initializePyodideStep, h]
  · simp [getPyodideStep, h]

/-- Witness for the amended Claim C6, at the concrete post-first-call
state: the hypothesis holds there and the amended conclusion follows by
the theorem. -/
theorem later_config_ignored_except_debug_witness :
    coordStateAfterFirst.pyodide = some 1 ∧
      (initializePyodideStep cfgDebugOn coordStateAfterFirst =
          (1, { coordStateAfterFirst with debugFlag := true }) ∧
        getPyodideStep (some 4) none coordStateAfterFirst =
          (1, coordStateAfterFirst)) :=
  ⟨by decide,
    later_config_ignored_except_debug coordStateAfterFirst cfgDebugOn
      (some 4) none 1 (by decide)⟩

/-! ## Claim C2 -/

/-- The client-module state in the middle of the first `initializeWorker`
call: the synchronous prefix has run (`_worker` and `_runner` assigned),
the awaited `_runner.initialize(...)` has not yet resolved. -/
def apiMidInitState : ApiState := initializeWorkerStart initialApiState

/-- Claim C2 counterexample: it is not true that every `runPython` or
`setOutput` call made before `initializeWorker` has resolved fails with
the not-ready error. In the reachable state where `initializeWorker` has
started but not resolved — `_worker` and `_runner` are assigned
synchronously before the `await` — both operations pass the null checks
and are forwarded to the worker instead of throwing. -/
theorem midinit_calls_are_forwarded_not_rejected :
    apiMidInitState = initializeWorkerStart initialApiState ∧
      apiMidInitState.initResolved = false ∧
      clientRunPython apiMidInitState (none : Option String) ≠
        Except.error notLoadedMsg ∧
      clientSetOutput apiMidInitState none ≠ Except.error notLoadedMsg := by
  refine ⟨rfl, rfl, ?_, ?_⟩ <;>
    simp [clientRunPython, clientSetOutput, apiMidInitState,
      initializeWorkerStart, initialApiState]

/-- Claim C2 as amended: `runPython` and `setOutput` fail with the
not-ready message `notLoadedMsg` exactly when the worker or
channel reference they check is null — that is, before `initializeWorker`
has ever been invoked, and again after `terminate()` has nulled both
references; a call made after `initializeWorker` has started (references
assigned) is instead forwarded, even if initialization has not resolved
yet. In particular both operations on a terminated client fail with that
same not-ready error. -/
theorem not_ready_guard_matches_null_refs (s : ApiState)
    (r : Option String) (cb : Option Nat) :
    (clientRunPython s r = Except.error notLoadedMsg ↔
        (s.worker = false ∨ s.runner = false)) ∧
      (clientSetOutput s cb = Except.error notLoadedMsg ↔
        s.runner = false) ∧
      clientRunPython (terminateClient s) r = Except.error notLoadedMsg ∧
      clientSetOutput (terminateClient s) cb = Except.error notLoadedMsg := by
  obtain ⟨w, rn, ir, n⟩ := s
  cases w <;> cases rn <;>
    simp [clientRunPython, clientSetOutput, terminateClient]

/-- Witness for the amended Claim C2 at concrete states: on the pristine
client both null checks fire, and on a terminated client both operations
fail with the not-ready error. -/
theorem not_ready_guard_matches_null_refs_witness :
    clientRunPython initialApiState (none : Option String) =
        Except.error notLoadedMsg ∧
      clientSetOutput initialApiState none = Except.error notLoadedMsg ∧
      clientRunPython (terminateClient apiMidInitState)
          (none : Option String) = Except.error notLoadedMsg ∧
      clientSetOutput (terminateClient apiMidInitState) none =
        Except.error notLoadedMsg :=
  ⟨(not_ready_guard_matches_null_refs initialApiState none none).1.mpr
      (Or.inl rfl),
    (not_ready_guard_matches_null_refs initialApiState none none).2.1.mpr
      rfl,
    (not_ready_guard_matches_null_refs apiMidInitState none none).2.2.1,
    (not_ready_guard_matches_null_refs apiMidInitState none none).2.2.2⟩

/-! ## Claim C3 -/

/-- Claim C3 counterexample: calling `initializeWorker` a second time on
the same client is NOT an error raised by the endpoint — the second call
resolves with a façade (`.ok`), is not rejected with
`pyodide was already initialized`, and `_runner.initialize` has still been
invoked only once, because the client guards the whole construction with
its `if (!_worker)` check and never forwards a second call. -/
theorem second_initializeWorker_is_not_an_error :
    (initializeWorkerCall (initializeWorkerCall initialApiState).2).1 =
        Except.ok () ∧
      (initializeWorkerCall (initializeWorkerCall initialApiState).2).1 ≠
        Except.error alreadyInitMsg ∧
      (initializeWorkerCall
          (initializeWorkerCall initialApiState).2).2.endpointInitCalls
        = 1 := by
  refine ⟨rfl, ?_, rfl⟩
  simp [initializeWorkerCall, initialApiState]

/-- Claim C3 as amended: the Client does have an already-called guard —
when `_worker` is set, a repeated `initializeWorker` returns the façade
at once, unchanged state, without forwarding anything to the Endpoint; it
is only the Endpoint `initialize` itself that, if it were invoked on an
already-initialized worker module, rejects with
`pyodide was already initialized`. -/
theorem client_guards_repeat_init_call (s : ApiState) (st : WorkerState)
    (pkgs : List String) (opts : Option WOpts) :
    (s.worker = true → initializeWorkerCall s = (Except.ok (), s)) ∧
      (st.pyodideReady.isSome = true →
        workerInitialize pkgs opts st = Except.error alreadyInitMsg) := by
  constructor
  · intro h
    simp [initializeWorkerCall, h]
  · intro h
    simp [workerInitialize, h]

/-- A client state with an existing worker, for the Claim C3 witness. -/
def c3ApiState : ApiState :=
  { worker := true, runner := true, initResolved := true,
    endpointInitCalls := 1 }

/-- An already-initialized worker-module state, for the Claim C3
witness. -/
def c3WorkerState : WorkerState :=
  { pyodideReady := some PromState.resolved, output := none,
    initOptions := none, requestedPackages := [] }

/-- Witness for the amended Claim C3 at concrete states: both hypotheses
hold and the conclusions follow by the theorem. -/
theorem client_guards_repeat_init_call_witness :
    initializeWorkerCall c3ApiState = (Except.ok (), c3ApiState) ∧
      workerInitialize [] none c3WorkerState =
        Except.error alreadyInitMsg :=
  ⟨(client_guards_repeat_init_call c3ApiState c3WorkerState [] none).1 rfl,
    (client_guards_repeat_init_call c3ApiState c3WorkerState [] none).2 rfl⟩

/-! ## Claim C4 -/

/-- Claim C4: when evaluation in the worker `runPython` raises an engine
`Error` with a (possibly multi-line) message, the error surfaced to the
caller carries the cleaned message; the lines of the cleaned message are
exactly the original lines with every line containing `File "<exec>"`
removed — the kept lines form an in-order sublist of the original lines,
none of them contains the marker, every marker-free original line is kept
— rejoined with newlines; and when an Output Sink is registered, the
cleaned message is delivered to it before the re-raise. -/
theorem engine_error_is_cleaned_and_sinked (s : WorkerState)
    (msg : String) (k : Nat) (h : s.output = some k) :
    workerRunPython s (Except.error (EngineErr.jsError msg)) =
        ([(k, cleanErrorMessage msg)],
          Except.error (EngineErr.jsError (cleanErrorMessage msg))) ∧
      List.Sublist (cleanKeptLines msg) (splitLines msg) ∧
      (∀ line ∈ cleanKeptLines msg,
        containsSub line markerLine = false) ∧
      (∀ line ∈ splitLines msg,
        containsSub line markerLine = false → line ∈ cleanKeptLines msg) ∧
      cleanErrorMessage msg = String.intercalate "\n" (cleanKeptLines msg)
    := by
  refine ⟨?_, List.filter_sublist _, ?_, ?_, rfl⟩
  · simp [workerRunPython, outputSlotDelivery, h]
  · intro line hl
    have hp := List.of_mem_filter hl
    simpa using hp
  · intro line hl hc
    refine List.mem_filter.mpr ⟨hl, ?_⟩
    simp [hc]

/-- A worker state with sink `0` registered, for the Claim C4 witness. -/
def c4WorkerState : WorkerState :=
  { pyodideReady := some PromState.resolved, output := some 0,
    initOptions := none, requestedPackages := [] }

/-- A raw error message whose middle line carries the synthetic
execution-unit marker. -/
def c4ExampleMsg : String :=
  "Traceback\n  File \"<exec>\", line 1\nZeroDivisionError"

/-- Witness for Claim C4 at a concrete state and message: the hypothesis
holds, the conclusion follows by the theorem, and the cleaned message
evaluates concretely to the original without the marker line. -/
theorem engine_error_is_cleaned_and_sinked_witness :
    c4WorkerState.output = some 0 ∧
      cleanErrorMessage c4ExampleMsg = "Traceback\nZeroDivisionError" ∧
      (workerRunPython c4WorkerState
          (Except.error (EngineErr.jsError c4ExampleMsg)) =
          ([(0, cleanErrorMessage c4ExampleMsg)],
            Except.error
              (EngineErr.jsError (cleanErrorMessage c4ExampleMsg))) ∧
        List.Sublist (cleanKeptLines c4ExampleMsg)
          (splitLines c4ExampleMsg) ∧
        (∀ line ∈ cleanKeptLines c4ExampleMsg,
          containsSub line markerLine = false) ∧
        (∀ line ∈ splitLines c4ExampleMsg,
          containsSub line markerLine = false →
            line ∈ cleanKeptLines c4ExampleMsg) ∧
        cleanErrorMessage c4ExampleMsg =
          String.intercalate "\n" (cleanKeptLines c4ExampleMsg)) :=
  ⟨rfl, by decide,
    engine_error_is_cleaned_and_sinked c4WorkerState c4ExampleMsg 0 rfl⟩

/-! ## Claim C7 -/

/-- Claim C7: a value thrown during evaluation that is not an `Error`
instance is re-raised to the caller unmodified — same value, no message
cleaning — and nothing is forwarded to the Output Sink, whatever the
worker state. -/
theorem non_error_throw_passes_through (s : WorkerState) (t : Nat) :
    workerRunPython s (Except.error (EngineErr.nonError t)) =
      ([], Except.error (EngineErr.nonError t)) := rfl

/-! ## Claim C8 -/

/-- Claim C8: `runPythonJson` parses the string returned by `runPython`
as JSON — on an initialized client, a `none`/empty result yields `null`,
a non-empty result is handed to the JSON parser, whose parsed value is
returned and whose parse error propagates as-is. -/
theorem runPythonJson_parses_truthy_results {α : Type}
    (parse : String → Except String α) (s : ApiState) (str : String)
    (j : α) (e : String) (hw : s.worker = true) (hr : s.runner = true) :
    runPythonJson parse s none = Except.ok none ∧
      runPythonJson parse s (some "") = Except.ok none ∧
      (str.isEmpty = false → parse str = Except.ok j →
        runPythonJson parse s (some str) = Except.ok (some j)) ∧
      (str.isEmpty = false → parse str = Except.error e →
        runPythonJson parse s (some str) = Except.error e) := by
  have he : ("" : String).isEmpty = true := rfl
  refine ⟨?_, ?_, ?_, ?_⟩
  · simp [runPythonJson, clientRunPython, hw, hr]
  · simp [runPythonJson, clientRunPython, hw, hr, he]
  · intro h1 h2
    simp [runPythonJson, clientRunPython, hw, hr, h1, h2]
  · intro h1 h2
    simp [runPythonJson, clientRunPython, hw, hr, h1, h2]

/-- An initialized client state, for the Claim C8 witness. -/
def c8ApiState : ApiState :=
  { worker := true, runner := true, initResolved := true,
    endpointInitCalls := 1 }

/-- A toy JSON parser on numerals, for the Claim C8 witness. -/
def c8Parse : String → Except String Nat := fun t =>
  if t = "7" then Except.ok 7 else Except.error "unexpected token"

/-- Witness for Claim C8 at a concrete client, parser and result strings:
the hypotheses hold and the conclusions follow by the theorem; the truthy
branch is additionally evaluated at the concrete input. -/
theorem runPythonJson_parses_truthy_results_witness :
    c8ApiState.worker = true ∧ c8ApiState.runner = true ∧
      (runPythonJson c8Parse c8ApiState none = Except.ok none ∧
        runPythonJson c8Parse c8ApiState (some "") = Except.ok none ∧
        (("7" : String).isEmpty = false → c8Parse "7" = Except.ok 7 →
          runPythonJson c8Parse c8ApiState (some "7") =
            Except.ok (some 7)) ∧
        (("7" : String).isEmpty = false →
          c8Parse "7" = Except.error "unexpected token" →
          runPythonJson c8Parse c8ApiState (some "7") =
            Except.error "unexpected token")) ∧
      runPythonJson c8Parse c8ApiState (some "7") = Except.ok (some 7) ∧
      runPythonJson c8Parse c8ApiState (some "x") =
        Except.error "unexpected token" :=
  ⟨rfl, rfl,
    runPythonJson_parses_truthy_results c8Parse c8ApiState "7" 7
      "unexpected token" rfl rfl,
    (runPythonJson_parses_truthy_results c8Parse c8ApiState "7" 7
      "unexpected token" rfl rfl).2.2.1 rfl rfl,
    (runPythonJson_parses_truthy_results c8Parse c8ApiState "x" 7
      "unexpected token" rfl rfl).2.2.2 rfl rfl⟩

/-! ## Claim C9 -/

/-- Claim C9: the worker `setOutput` replaces the single Output Sink slot
last-write-wins: after registering a new sink, a chunk delivered through
the slot goes to the new sink only — in particular never to the
previously registered, different sink — and after registering `none` no
chunk is delivered through the slot at all, also on the error-forwarding
path of `runPython`, until a new sink is set. -/
theorem output_sink_replacement_is_last_write_wins (s : WorkerState)
    (kNew kOld : Nat) (msg : String) (h : kOld ≠ kNew) :
    outputSlotDelivery (setOutputWorker (some kNew) s) msg =
        [(kNew, msg)] ∧
      (∀ pr ∈ outputSlotDelivery (setOutputWorker (some kNew) s) msg,
        pr.1 ≠ kOld) ∧
      outputSlotDelivery (setOutputWorker none s) msg = [] ∧
      (workerRunPython (setOutputWorker none s)
        (Except.error (EngineErr.jsError msg))).1 = [] := by
  refine ⟨rfl, ?_, rfl, rfl⟩
  intro pr hpr
  simp only [outputSlotDelivery, setOutputWorker, List.mem_singleton]
    at hpr
  rw [hpr]
  exact fun hk => h (hk.symm)

/-- Witness for Claim C9 at concrete sinks `1` (new) and `0` (old): the
hypothesis holds and the conclusions follow by the theorem. -/
theorem output_sink_replacement_witness :
    (0 : Nat) ≠ 1 ∧
      (outputSlotDelivery (setOutputWorker (some 1) initialWorkerState)
          "chunk" = [(1, "chunk")] ∧
        (∀ pr ∈ outputSlotDelivery
            (setOutputWorker (some 1) initialWorkerState) "chunk",
          pr.1 ≠ 0) ∧
        outputSlotDelivery (setOutputWorker none initialWorkerState)
          "chunk" = [] ∧
        (workerRunPython (setOutputWorker none initialWorkerState)
          (Except.error (EngineErr.jsError "chunk"))).1 = []) :=
  ⟨by decide,
    output_sink_replacement_is_last_write_wins initialWorkerState 1 0
      "chunk" (by decide)⟩

/-! ## Claim C10 -/

/-- Claim C10: the endpoint `initialize` rejects with
`pyodide was already initialized` on every call after the first — the
guard being `_pyodideReady`, which is non-null as soon as the first call
assigned it, whether that promise is still pending, resolved, or already
rejected — and no endpoint operation ever resets `_pyodideReady` to null,
so no endpoint-level retry after a failed initialization is possible. -/
theorem endpoint_initialize_guard_is_permanent (s : WorkerState)
    (pkgs : List String) (opts : Option WOpts) (op : WorkerOp)
    (h : s.pyodideReady.isSome = true) :
    workerInitialize pkgs opts s = Except.error alreadyInitMsg ∧
      (workerStep s op).pyodideReady.isSome = true := by
  constructor
  · simp [workerInitialize, h]
  · cases op with
    | init pkgs2 opts2 => simp [workerStep, workerInitialize, h]
    | settle ok =>
        rcases hps : s.pyodideReady with _ | ps
        · rw [hps] at h
          simp at h
        · cases ps <;> cases ok <;>
            simp [workerStep, workerSettleReady, hps]
    | setOut cb => simp [workerStep, setOutputWorker, h]

/-- A worker-module state whose initialization is still pending, for the
Claim C10 witness. -/
def c10PendingState : WorkerState :=
  { pyodideReady := some PromState.pending, output := none,
    initOptions := none, requestedPackages := [] }

/-- A worker-module state whose initialization has failed, for the Claim
C10 witness. -/
def c10RejectedState : WorkerState :=
  { pyodideReady := some PromState.rejected, output := none,
    initOptions := none, requestedPackages := [] }

/-- Witness for Claim C10 at concrete states, one pending and one failed:
the hypotheses hold and the conclusions follow by the theorem. -/
theorem endpoint_initialize_guard_witness :
    c10PendingState.pyodideReady.isSome = true ∧
      c10RejectedState.pyodideReady.isSome = true ∧
      (workerInitialize [] none c10PendingState =
          Except.error alreadyInitMsg ∧
        (workerStep c10PendingState
          (WorkerOp.settle false)).pyodideReady.isSome = true) ∧
      (workerInitialize ["numpy"] none c10RejectedState =
          Except.error alreadyInitMsg ∧
        (workerStep c10RejectedState
          (WorkerOp.setOut (some 3))).pyodideReady.isSome = true) :=
  ⟨rfl, rfl,
    endpoint_initialize_guard_is_permanent c10PendingState [] none
      (WorkerOp.settle false) rfl,
    endpoint_initialize_guard_is_permanent c10RejectedState ["numpy"] none
      (WorkerOp.setOut (some 3)) rfl⟩

end UsePyodide
